import Mathlib

/-!
Verification of the track-selection engine
(`src/track-selection-engine/src/track_selector/`): shallow embedding of
`models.py`, `library.py` and `journey_planner.py`, followed by theorems
about the embedded functions.

Modelling conventions:
* Python `float` values (tempos, durations, timestamps, tolerances) are
  embedded as `ℚ`; the spec declares tempo "a positive real", and every
  concrete comparison used in a theorem sits far from the rounding scale
  of binary64, except where a comment notes otherwise.
* Python `int` energy levels and scores are embedded as `ℤ`, counts as `ℕ`.
* `random.choice` is embedded as an arbitrary `choose : Nat → List TrackMetadata
  → TrackMetadata` parameter; distinct call sites consume distinct indices, so
  every sequence of draws the interpreter can make corresponds to some
  `choose`.  Theorems that need the defining property of `random.choice`
  (the result is an element of the list) take it as the hypothesis
  `∀ n l, l ≠ [] → choose n l ∈ l`.
* `raise ValueError(msg)` is embedded as `Except.error msg`.
-/

namespace TrackSelector

/-- `TextureType` enum from `models.py`. -/
inductive TextureType where
  | ATMOSPHERIC | PERCUSSIVE | VOCAL | MELODIC | MINIMAL
  | LAYERED | DUB | TRIBAL | HYPNOTIC | ORGANIC
deriving DecidableEq

/-- `JourneyPosition` enum from `models.py`. -/
inductive JourneyPosition where
  | OPENER | WARM_UP | BUILDER | CORE | PEAK | BRIDGE | WIND_DOWN | CLOSER
deriving DecidableEq

/-- `MusicalKey` enum from `models.py` (Camelot notation, values "1A".."12B"). -/
inductive MusicalKey where
  | A_MINOR | E_MINOR | B_MINOR | F_SHARP_MINOR | D_FLAT_MINOR | A_FLAT_MINOR
  | E_FLAT_MINOR | B_FLAT_MINOR | F_MINOR | C_MINOR | G_MINOR | D_MINOR
  | C_MAJOR | G_MAJOR | D_MAJOR | A_MAJOR | E_MAJOR | B_MAJOR
  | F_SHARP_MAJOR | D_FLAT_MAJOR | A_FLAT_MAJOR | E_FLAT_MAJOR | B_FLAT_MAJOR | F_MAJOR
deriving DecidableEq

/-- `int(key.value[:-1])` — the Camelot wheel number encoded in the enum value. -/
def camelotNum : MusicalKey → ℕ
  | .A_MINOR => 1 | .E_MINOR => 2 | .B_MINOR => 3 | .F_SHARP_MINOR => 4
  | .D_FLAT_MINOR => 5 | .A_FLAT_MINOR => 6 | .E_FLAT_MINOR => 7 | .B_FLAT_MINOR => 8
  | .F_MINOR => 9 | .C_MINOR => 10 | .G_MINOR => 11 | .D_MINOR => 12
  | .C_MAJOR => 1 | .G_MAJOR => 2 | .D_MAJOR => 3 | .A_MAJOR => 4
  | .E_MAJOR => 5 | .B_MAJOR => 6 | .F_SHARP_MAJOR => 7 | .D_FLAT_MAJOR => 8
  | .A_FLAT_MAJOR => 9 | .E_FLAT_MAJOR => 10 | .B_FLAT_MAJOR => 11 | .F_MAJOR => 12

/-- `key.value[-1] == 'A'` — whether the key sits on the minor ("A") wheel. -/
def camelotIsA : MusicalKey → Bool
  | .A_MINOR | .E_MINOR | .B_MINOR | .F_SHARP_MINOR | .D_FLAT_MINOR | .A_FLAT_MINOR
  | .E_FLAT_MINOR | .B_FLAT_MINOR | .F_MINOR | .C_MINOR | .G_MINOR | .D_MINOR => true
  | _ => false

/-- `CuePoint` dataclass from `models.py`. -/
structure CuePoint where
  time : ℚ
  label : String
  color : Option String
  confidence : ℚ
deriving DecidableEq

/-- `TrackMetadata` dataclass from `models.py` (all fields, so that the
dataclass-generated structural `==` used by `get_compatible_tracks` is
embedded faithfully). -/
structure TrackMetadata where
  file_path : String
  title : String
  artist : String
  bpm : ℚ
  key : Option MusicalKey
  duration : ℚ
  energy_level : ℤ
  textures : List TextureType
  journey_position : Option JourneyPosition
  label : Option String
  genre : List String
  intro_start : Option ℚ
  intro_end : Option ℚ
  outro_start : Option ℚ
  outro_end : Option ℚ
  cue_points : List CuePoint
  num_beats : Option ℤ
  downbeats : List ℚ
  year : Option ℤ
  tags : List String
  notes : String
deriving DecidableEq

/-- `JourneyArc` dataclass from `models.py`. -/
structure JourneyArc where
  name : String
  description : String
  duration_minutes : ℤ
  key_center : Option MusicalKey
  bpm_range : ℚ × ℚ
  energy_curve : List ℤ
  num_tracks : ℕ
  required_textures : List TextureType
  preferred_labels : List String
  blend_duration : ℚ
deriving DecidableEq

/-- `Transition` dataclass from `models.py`.  The free-text `notes` field is
built in the source by an f-string that formats floats (`f"... over
{blend_duration}s"`); Python float formatting is presentational and is
modelled by the empty string. -/
structure Transition where
  track_a : TrackMetadata
  track_b : TrackMetadata
  start_time_a : ℚ
  start_time_b : ℚ
  blend_duration : ℚ
  bpm_compatible : Bool
  key_compatible : Bool
  energy_compatible : Bool
  texture_compatible : Bool
  strategy : String
  notes : String
deriving DecidableEq

/-- `Playlist` dataclass from `models.py`.  `created_at` is a wall-clock
timestamp (`datetime.now().isoformat()`) in the source; the clock is not
modelled, so the planner fills in `none`. -/
structure Playlist where
  name : String
  journey_arc : JourneyArc
  tracks : List TrackMetadata
  transitions : List Transition
  total_duration : ℚ
  created_at : Option String
deriving DecidableEq

/-- `TrackLibrary` state from `library.py` (`__init__`, lines 19-32): the
primary list plus the two secondary indexes, modelled as association lists. -/
structure TrackLibrary where
  tracks : List TrackMetadata
  tracks_by_key : List (MusicalKey × List TrackMetadata)
  tracks_by_bpm : List (ℤ × List TrackMetadata)
deriving DecidableEq

/-- `TrackLibrary.find_tracks_by_bpm_range` (`library.py` lines 148-150). -/
def find_tracks_by_bpm_range (lib : TrackLibrary) (min_bpm max_bpm : ℚ) :
    List TrackMetadata :=
  lib.tracks.filter (fun t => decide (min_bpm ≤ t.bpm ∧ t.bpm ≤ max_bpm))

/-- `TrackLibrary.are_keys_compatible` (`library.py` lines 214-242). -/
def are_keys_compatible (key1 key2 : MusicalKey) : Bool :=
  if key1 = key2 then true
  else
    let num1 := camelotNum key1
    let num2 := camelotNum key2
    if num1 = num2 then true
    else if camelotIsA key1 = camelotIsA key2 then
      let diff := ((num1 : ℤ) - (num2 : ℤ)).natAbs
      decide (diff = 1 ∨ diff = 11)
    else false

/-- One tempo band of the compatibility rule: the quotient of the two tempos
is within `tol` percent of the band center (the source writes the three
`abs(bpm_ratio - c) <= bpm_tolerance / 100.0` tests inline in
`get_compatible_tracks`). -/
def tempo_band (q center tol : ℚ) : Prop :=
  |q - center| ≤ tol / 100

instance (q center tol : ℚ) : Decidable (tempo_band q center tol) := by
  unfold tempo_band; infer_instance

/-- `TrackLibrary.get_compatible_tracks` (`library.py` lines 171-212).
`track == reference_track` is the dataclass structural equality; the tempo
quotient is `track.bpm / reference_track.bpm`. -/
def get_compatible_tracks (lib : TrackLibrary) (reference_track : TrackMetadata)
    (bpm_tolerance : ℚ) (key_compatible_only : Bool) : List TrackMetadata :=
  lib.tracks.filter (fun track =>
    if track = reference_track then false
    else
      let q := track.bpm / reference_track.bpm
      if ¬ (tempo_band q 1 bpm_tolerance ∨ tempo_band q 2 bpm_tolerance ∨
            tempo_band q (1/2) bpm_tolerance) then false
      else
        match key_compatible_only, reference_track.key, track.key with
        | true, some k1, some k2 => are_keys_compatible k1 k2
        | _, _, _ => true)

/-- Python's substring test `needle in hay` on strings. -/
def isSubstring (needle hay : String) : Bool :=
  hay.toList.tails.any (fun t => needle.toList.isPrefixOf t)

/-- The label-preference predicate appearing in `_select_opener` and
`_select_next_track`: `t.label and any(lbl in t.label for lbl in
preferred_labels)` (Python truthiness: a `None` or empty label fails). -/
def label_matches (preferred_labels : List String) (t : TrackMetadata) : Bool :=
  match t.label with
  | none => false
  | some s => (!(s == "")) && preferred_labels.any (fun lbl => isSubstring lbl s)

/-- Opening segment of the `gradual_build` curve
(`journey_planner.py` line 107): `[2 + i % 3 for i in range(third)]`. -/
def gb_opening (third : ℕ) : List ℤ :=
  (List.range third).map (fun i => 2 + ((i % 3 : ℕ) : ℤ))

/-- Build segment of the `gradual_build` curve (lines 110-112):
`4 + int((i / third) * 3)`.  For every `i < third` the float expression
`int((i / third) * 3)` equals `⌊3*i/third⌋` in exact arithmetic (the binary64
error of the division is far too small to cross an integer boundary, and at
the representable boundary multiples 1/3 and 2/3 round-to-nearest-even lands
exactly on the integer), so it is embedded as natural division. -/
def gb_build (third : ℕ) : List ℤ :=
  (List.range third).map (fun i => ((4 + (3 * i) / third : ℕ) : ℤ))

/-- Peak-and-descent segment of the `gradual_build` curve (lines 115-117).
At iteration `i` the list built so far has length `2*third + i`, so the
source expression `7 - int((i / (num_tracks - len(curve))) * 2)` reads the
shrinking denominator `n - 2*third - i`; the clamp `max(energy, 5)` is
applied to each element.  As in `gb_build`, the float truncation equals
natural division. -/
def gb_descent (n third : ℕ) : List ℤ :=
  (List.range (n - 2 * third)).map
    (fun i => max ((7 : ℤ) - (((2 * i) / (n - 2 * third - i) : ℕ) : ℤ)) 5)

/-- Build segment of the `peak_and_descent` curve (lines 127-129):
`2 + int((i / peak_at) * 6)`, embedded as natural division. -/
def pd_build (peak_at : ℕ) : List ℤ :=
  (List.range peak_at).map (fun i => ((2 + (6 * i) / peak_at : ℕ) : ℤ))

/-- Descent segment of the `peak_and_descent` curve (lines 132-134):
`max(8 - int((i / (num_tracks - peak_at)) * 5), 3)` with a fixed
denominator, embedded as natural division. -/
def pd_descent (n peak_at : ℕ) : List ℤ :=
  (List.range (n - peak_at)).map
    (fun i => max ((8 : ℤ) - (((5 * i) / (n - peak_at) : ℕ) : ℤ)) 3)

/-- `JourneyPlanner._generate_energy_curve` (`journey_planner.py` lines
89-144).  `peak_at = int(num_tracks * 0.65)` is embedded as
`num_tracks * 65 / 100`: the stored binary64 for 0.65 is slightly above
65/100, so for every track count below 2^49 the float truncation agrees
with the rational floor. -/
def generate_energy_curve (num_tracks : ℕ) (progression : String) : List ℤ :=
  if progression = "gradual_build" then
    let third := num_tracks / 3
    (gb_opening third ++ gb_build third ++ gb_descent num_tracks third).take num_tracks
  else if progression = "peak_and_descent" then
    let peak_at := num_tracks * 65 / 100
    (pd_build peak_at ++ pd_descent num_tracks peak_at).take num_tracks
  else if progression = "steady" then
    (List.range num_tracks).map (fun i => 5 + ((i % 2 : ℕ) : ℤ))
  else
    List.replicate num_tracks 5

/-- Texture-variety term of `_score_track_compatibility` (`journey_planner.py`
lines 357-361): both texture lists non-empty (Python truthiness) and the
number of distinct shared textures (`len(set(current) & set(candidate))`)
strictly below the length of `current.textures`. -/
def texture_variety_bonus (current candidate : TrackMetadata) : ℤ :=
  if current.textures.isEmpty || candidate.textures.isEmpty then 0
  else if (current.textures.dedup.filter
            (fun x => decide (x ∈ candidate.textures))).length
          < current.textures.length then 10
  else 0

/-- `JourneyPlanner._score_track_compatibility` (`journey_planner.py` lines
323-367).  Every increment is integral, so the Python float score is
embedded as `ℤ`. -/
def score_track_compatibility (current candidate : TrackMetadata)
    (target_energy : ℤ) : ℤ :=
  let score : ℤ := 50
  let energy_diff := |candidate.energy_level - target_energy|
  let score := if energy_diff = 0 then score + 20 else score - energy_diff * 5
  let bpm_diff := |current.bpm - candidate.bpm|
  let score :=
    if bpm_diff < 2 then score + 15
    else if bpm_diff < 4 then score + 10
    else if bpm_diff < 6 then score + 5
    else score
  let score :=
    match current.key, candidate.key with
    | some k1, some k2 => if are_keys_compatible k1 k2 then score + 25 else score
    | _, _ => score
  let score := score + texture_variety_bonus current candidate
  let score := if current.artist = candidate.artist then score - 15 else score
  max 0 score

/-- `JourneyPlanner._create_transition` (`journey_planner.py` lines 369-425).
`if track_a.outro_start:` and `track_b.intro_start if track_b.intro_start
else 0.0` use Python truthiness: a marker equal to 0.0 takes the fallback
branch. -/
def create_transition (track_a track_b : TrackMetadata) (blend_duration : ℚ) :
    Transition :=
  let start_time_a :=
    match track_a.outro_start with
    | some v => if v = 0 then max 0 (track_a.duration - blend_duration) else v
    | none => max 0 (track_a.duration - blend_duration)
  let start_time_b :=
    match track_b.intro_start with
    | some v => if v = 0 then 0 else v
    | none => 0
  let q := track_a.bpm / track_b.bpm
  let bpm_compatible :=
    decide ((94/100 : ℚ) ≤ q ∧ q ≤ 106/100) ||
    decide ((188/100 : ℚ) ≤ q ∧ q ≤ 212/100)
  let key_compatible :=
    match track_a.key, track_b.key with
    | some k1, some k2 => are_keys_compatible k1 k2
    | _, _ => true
  let energy_compatible := decide (|track_a.energy_level - track_b.energy_level| ≤ 2)
  let texture_compatible :=
    if track_a.textures.isEmpty || track_b.textures.isEmpty then true
    else !(track_a.textures.filter (fun x => decide (x ∈ track_b.textures))).isEmpty
  { track_a := track_a, track_b := track_b,
    start_time_a := start_time_a, start_time_b := start_time_b,
    blend_duration := blend_duration,
    bpm_compatible := bpm_compatible, key_compatible := key_compatible,
    energy_compatible := energy_compatible, texture_compatible := texture_compatible,
    strategy := "extended_blend", notes := "" }

/-- One step of a stable descending insertion: place `x` after every element
whose score is at least `f x`. -/
def insertDesc (f : α → ℤ) (x : α) : List α → List α
  | [] => [x]
  | y :: ys => if f y < f x then x :: y :: ys else y :: insertDesc f x ys

/-- `scored_candidates.sort(key=lambda x: x[1], reverse=True)`
(`journey_planner.py` line 314).  Python's sort is stable, and a stable
descending sort has a unique output (descending scores, equal scores in
original order), which this left-to-right insertion produces. -/
def stableSortDesc (f : α → ℤ) (l : List α) : List α :=
  l.foldl (fun acc x => insertDesc f x acc) []

/-- The repeated preference pattern of `_select_opener` and
`_select_next_track`: narrow the candidate list by a predicate, but keep
the pre-narrowing list when the narrowing would leave it empty
(`xs = candidates.filter(...)`; `if xs: candidates = xs`). -/
def prefer_step (candidates : List TrackMetadata)
    (p : TrackMetadata → Bool) : List TrackMetadata :=
  let narrowed := candidates.filter p
  if narrowed.isEmpty then candidates else narrowed

/-- The mandatory filter block of `_select_opener` (`journey_planner.py`
lines 218-231): tempo-range lookup, energy filter (within ±1 of the
curve's first value, default 2 on an empty curve), and — when `strict_key`
is set together with a key center — the harmonic filter, which the source
applies *without* an emptiness fallback. -/
def opener_mandatory_candidates (lib : TrackLibrary) (arc : JourneyArc)
    (strict_key : Bool) : List TrackMetadata :=
  let target_energy := match arc.energy_curve with | [] => 2 | e :: _ => e
  let base := (find_tracks_by_bpm_range lib arc.bpm_range.1 arc.bpm_range.2).filter
    (fun t => decide (|t.energy_level - target_energy| ≤ 1))
  match strict_key, arc.key_center with
  | true, some kc =>
      base.filter (fun t : TrackMetadata =>
        match t.key with
        | some k => are_keys_compatible k kc
        | none => false)
  | _, _ => base

/-- `JourneyPlanner._select_opener` (`journey_planner.py` lines 211-255).
`random.choice(candidates) if candidates else None` draws through `choose`
at stream index 0. -/
def select_opener (lib : TrackLibrary) (arc : JourneyArc)
    (strict_key prefer_labels : Bool)
    (choose : Nat → List TrackMetadata → TrackMetadata) : Option TrackMetadata :=
  let candidates := opener_mandatory_candidates lib arc strict_key
  let candidates := prefer_step candidates
    (fun t => decide (t.journey_position = some JourneyPosition.OPENER))
  let candidates := prefer_step candidates
    (fun t => decide (TextureType.ATMOSPHERIC ∈ t.textures ∨
                      TextureType.MINIMAL ∈ t.textures))
  let candidates :=
    if prefer_labels && !arc.preferred_labels.isEmpty then
      prefer_step candidates (label_matches arc.preferred_labels)
    else candidates
  if candidates.isEmpty then none else some (choose 0 candidates)

/-- The mandatory filter chain of `_select_next_track` (`journey_planner.py`
lines 268-284): compatible tracks at 6% tolerance, minus already-used file
paths, restricted to the target energy ±1 and the arc's tempo range.  Its
emptiness is exactly the condition on which the source returns `None`. -/
def successor_filtered (lib : TrackLibrary) (current_track : TrackMetadata)
    (target_energy : ℤ) (arc : JourneyArc) (strict_key : Bool)
    (already_used : List String) : List TrackMetadata :=
  let candidates := get_compatible_tracks lib current_track 6 strict_key
  let candidates := candidates.filter
    (fun t => decide (¬ t.file_path ∈ already_used))
  let candidates := candidates.filter
    (fun t => decide (|t.energy_level - target_energy| ≤ 1))
  candidates.filter
    (fun t => decide (arc.bpm_range.1 ≤ t.bpm ∧ t.bpm ≤ arc.bpm_range.2))

/-- `JourneyPlanner._select_next_track` (`journey_planner.py` lines 257-321).
The call passes `bpm_tolerance=6.0` to `get_compatible_tracks`; the
`random.choice` over the top three draws through `choose` at the stream
index of the current loop iteration. -/
def select_next_track (lib : TrackLibrary) (current_track : TrackMetadata)
    (target_energy : ℤ) (arc : JourneyArc) (strict_key prefer_labels : Bool)
    (already_used : List String)
    (choose : Nat → List TrackMetadata → TrackMetadata) (rand_index : Nat) :
    Option TrackMetadata :=
  let candidates := successor_filtered lib current_track target_energy arc
    strict_key already_used
  if candidates.isEmpty then none
  else
    let candidates :=
      match current_track.key with
      | some ck =>
          prefer_step candidates (fun t : TrackMetadata =>
            match t.key with
            | some k => are_keys_compatible ck k
            | none => false)
      | none => candidates
    let candidates :=
      if prefer_labels && !arc.preferred_labels.isEmpty then
        prefer_step candidates (label_matches arc.preferred_labels)
      else candidates
    let scored := candidates.map
      (fun t => (t, score_track_compatibility current_track t target_energy))
    let sorted := stableSortDesc (fun p => p.2) scored
    if sorted.length ≤ 3 then (sorted.head?).map (fun p => p.1)
    else some (choose rand_index ((sorted.take 3).map (fun p => p.1)))

/-- `journey_arc.energy_curve[i] if i < len(journey_arc.energy_curve) else 5`
(`journey_planner.py` line 176). -/
def targetEnergy (arc : JourneyArc) (i : ℕ) : ℤ :=
  match arc.energy_curve.get? i with
  | some e => e
  | none => 5

/-- `Playlist.calculate_duration` (`models.py` lines 275-286). -/
def calculate_duration (tracks : List TrackMetadata)
    (transitions : List Transition) : ℚ :=
  match tracks with
  | [] => 0
  | t :: _ =>
      transitions.foldl
        (fun total tr => total + tr.track_b.duration - tr.blend_duration)
        t.duration

/-- The successor loop of `generate_playlist` (`journey_planner.py` lines
174-196), over the remaining indices `range(1, num_tracks)`.  On a failed
search the loop stops (`break`) with the tracks and transitions selected so
far; the `already_used` argument is `[t.file_path for t in selected_tracks]`. -/
def planLoop (lib : TrackLibrary) (arc : JourneyArc)
    (strict_key prefer_labels : Bool)
    (choose : Nat → List TrackMetadata → TrackMetadata) :
    List ℕ → TrackMetadata → List TrackMetadata → List Transition →
    List TrackMetadata × List Transition
  | [], _, selected, transitions => (selected, transitions)
  | i :: rest, current, selected, transitions =>
      match select_next_track lib current (targetEnergy arc i) arc strict_key
          prefer_labels (selected.map (fun t : TrackMetadata => t.file_path)) choose i with
      | none => (selected, transitions)
      | some next =>
          planLoop lib arc strict_key prefer_labels choose rest next
            (selected ++ [next])
            (transitions ++ [create_transition current next arc.blend_duration])

/-- `JourneyPlanner.generate_playlist` (`journey_planner.py` lines 146-209).
A missing opener raises `ValueError("No suitable opener found in library")`,
embedded as `Except.error`. -/
def generate_playlist (lib : TrackLibrary) (arc : JourneyArc)
    (strict_key prefer_labels : Bool)
    (choose : Nat → List TrackMetadata → TrackMetadata) :
    Except String Playlist :=
  match select_opener lib arc strict_key prefer_labels choose with
  | none => Except.error "No suitable opener found in library"
  | some first_track =>
      let st := planLoop lib arc strict_key prefer_labels choose
        (List.range' 1 (arc.num_tracks - 1)) first_track [first_track] []
      Except.ok
        { name := arc.name, journey_arc := arc, tracks := st.1,
          transitions := st.2,
          total_duration := calculate_duration st.1 st.2,
          created_at := none }

/-!  State-threading embedding of the same planner, for the frame property:
each `TrackLibrary` method used during planning is a state transformer
returning the post-call store (the Python method bodies contain no
assignment to `self`, which the transformer makes explicit), and the planner
threads the store through every call. -/

/-- `find_tracks_by_bpm_range` as a state transformer on the store. -/
def find_tracks_by_bpm_range_st (lib : TrackLibrary) (min_bpm max_bpm : ℚ) :
    TrackLibrary × List TrackMetadata :=
  (lib, find_tracks_by_bpm_range lib min_bpm max_bpm)

/-- `get_compatible_tracks` as a state transformer on the store. -/
def get_compatible_tracks_st (lib : TrackLibrary)
    (reference_track : TrackMetadata) (bpm_tolerance : ℚ)
    (key_compatible_only : Bool) : TrackLibrary × List TrackMetadata :=
  (lib, get_compatible_tracks lib reference_track bpm_tolerance key_compatible_only)

/-- `_select_opener` threading the store through its single library call. -/
def select_opener_st (lib : TrackLibrary) (arc : JourneyArc)
    (strict_key prefer_labels : Bool)
    (choose : Nat → List TrackMetadata → TrackMetadata) :
    TrackLibrary × Option TrackMetadata :=
  let target_energy := match arc.energy_curve with | [] => 2 | e :: _ => e
  let s1 := find_tracks_by_bpm_range_st lib arc.bpm_range.1 arc.bpm_range.2
  let base := s1.2.filter
    (fun t => decide (|t.energy_level - target_energy| ≤ 1))
  let candidates :=
    match strict_key, arc.key_center with
    | true, some kc =>
        base.filter (fun t : TrackMetadata =>
          match t.key with
          | some k => are_keys_compatible k kc
          | none => false)
    | _, _ => base
  let candidates := prefer_step candidates
    (fun t => decide (t.journey_position = some JourneyPosition.OPENER))
  let candidates := prefer_step candidates
    (fun t => decide (TextureType.ATMOSPHERIC ∈ t.textures ∨
                      TextureType.MINIMAL ∈ t.textures))
  let candidates :=
    if prefer_labels && !arc.preferred_labels.isEmpty then
      prefer_step candidates (label_matches arc.preferred_labels)
    else candidates
  (s1.1, if candidates.isEmpty then none else some (choose 0 candidates))

/-- `_select_next_track` threading the store through its single library call. -/
def select_next_track_st (lib : TrackLibrary) (current_track : TrackMetadata)
    (target_energy : ℤ) (arc : JourneyArc) (strict_key prefer_labels : Bool)
    (already_used : List String)
    (choose : Nat → List TrackMetadata → TrackMetadata) (rand_index : Nat) :
    TrackLibrary × Option TrackMetadata :=
  let s1 := get_compatible_tracks_st lib current_track 6 strict_key
  let candidates := s1.2.filter
    (fun t => decide (¬ t.file_path ∈ already_used))
  let candidates := candidates.filter
    (fun t => decide (|t.energy_level - target_energy| ≤ 1))
  let candidates := candidates.filter
    (fun t => decide (arc.bpm_range.1 ≤ t.bpm ∧ t.bpm ≤ arc.bpm_range.2))
  if candidates.isEmpty then (s1.1, none)
  else
    let candidates :=
      match current_track.key with
      | some ck =>
          prefer_step candidates (fun t : TrackMetadata =>
            match t.key with
            | some k => are_keys_compatible ck k
            | none => false)
      | none => candidates
    let candidates :=
      if prefer_labels && !arc.preferred_labels.isEmpty then
        prefer_step candidates (label_matches arc.preferred_labels)
      else candidates
    let scored := candidates.map
      (fun t => (t, score_track_compatibility current_track t target_energy))
    let sorted := stableSortDesc (fun p => p.2) scored
    (s1.1,
      if sorted.length ≤ 3 then (sorted.head?).map (fun p => p.1)
      else some (choose rand_index ((sorted.take 3).map (fun p => p.1))))

/-- The successor loop threading the store through every search. -/
def planLoop_st (arc : JourneyArc) (strict_key prefer_labels : Bool)
    (choose : Nat → List TrackMetadata → TrackMetadata) :
    TrackLibrary → List ℕ → TrackMetadata → List TrackMetadata →
    List Transition → TrackLibrary × (List TrackMetadata × List Transition)
  | lib, [], _, selected, transitions => (lib, (selected, transitions))
  | lib, i :: rest, current, selected, transitions =>
      let s1 := select_next_track_st lib current (targetEnergy arc i) arc
        strict_key prefer_labels (selected.map (fun t : TrackMetadata => t.file_path)) choose i
      match s1.2 with
      | none => (s1.1, (selected, transitions))
      | some next =>
          planLoop_st arc strict_key prefer_labels choose s1.1 rest next
            (selected ++ [next])
            (transitions ++ [create_transition current next arc.blend_duration])

/-- `generate_playlist` threading the store through planning. -/
def generate_playlist_st (lib : TrackLibrary) (arc : JourneyArc)
    (strict_key prefer_labels : Bool)
    (choose : Nat → List TrackMetadata → TrackMetadata) :
    TrackLibrary × Except String Playlist :=
  let s1 := select_opener_st lib arc strict_key prefer_labels choose
  match s1.2 with
  | none => (s1.1, Except.error "No suitable opener found in library")
  | some first_track =>
      let s2 := planLoop_st arc strict_key prefer_labels choose s1.1
        (List.range' 1 (arc.num_tracks - 1)) first_track [first_track] []
      (s2.1,
        Except.ok
          { name := arc.name, journey_arc := arc, tracks := s2.2.1,
            transitions := s2.2.2,
            total_duration := calculate_duration s2.2.1 s2.2.2,
            created_at := none })

/-!  Concrete fixtures used by the example conjuncts, counterexamples and
witnesses. -/

/-- A concrete track with neutral metadata; fixtures below override fields. -/
def baseTrack : TrackMetadata :=
  { file_path := "base.wav", title := "Base", artist := "Artist", bpm := 120,
    key := none, duration := 360, energy_level := 5, textures := [],
    journey_position := none, label := none, genre := [], intro_start := none,
    intro_end := none, outro_start := none, outro_end := none, cue_points := [],
    num_beats := none, downbeats := [], year := none, tags := [], notes := "" }

/-- A concrete instantiation of `random.choice`: always take the first
element. -/
def chooseDefault : Nat → List TrackMetadata → TrackMetadata :=
  fun _ l => l.headD baseTrack

def tr120 : TrackMetadata := { baseTrack with file_path := "t120.wav", bpm := 120 }

def tr240 : TrackMetadata := { baseTrack with file_path := "t240.wav", bpm := 240 }

def tr128 : TrackMetadata := { baseTrack with file_path := "t128.wav", bpm := 128 }

def lib1 : TrackLibrary := { tracks := [tr120, tr240, tr128], tracks_by_key := [], tracks_by_bpm := [] }

def trTexA : TrackMetadata :=
  { baseTrack with file_path := "texA.wav", textures := [TextureType.ATMOSPHERIC] }

def trTexB : TrackMetadata :=
  { baseTrack with file_path := "texB.wav", textures := [TextureType.DUB] }

/-- A track matching the opener's tempo and energy filters but harmonically
incompatible with the key center `A_FLAT_MINOR` (Camelot 1A vs 6A). -/
def trC2 : TrackMetadata :=
  { baseTrack with file_path := "c2.wav", bpm := 120, energy_level := 2,
                   key := some MusicalKey.A_MINOR }

def libC2 : TrackLibrary := { tracks := [trC2], tracks_by_key := [], tracks_by_bpm := [] }

def arcC2 : JourneyArc :=
  { name := "c2 arc", description := "", duration_minutes := 6,
    key_center := some MusicalKey.A_FLAT_MINOR, bpm_range := (118, 124),
    energy_curve := [2], num_tracks := 1, required_textures := [],
    preferred_labels := [], blend_duration := 60 }

def trW : TrackMetadata :=
  { baseTrack with file_path := "w1.wav", bpm := 120, energy_level := 2 }

def trW2 : TrackMetadata :=
  { baseTrack with file_path := "w2.wav", bpm := 121, energy_level := 2 }

def arcW : JourneyArc :=
  { name := "w arc", description := "", duration_minutes := 12,
    key_center := none, bpm_range := (118, 124),
    energy_curve := [2, 2], num_tracks := 2, required_textures := [],
    preferred_labels := [], blend_duration := 60 }

def libW : TrackLibrary := { tracks := [trW], tracks_by_key := [], tracks_by_bpm := [] }

def libW2 : TrackLibrary := { tracks := [trW, trW2], tracks_by_key := [], tracks_by_bpm := [] }

def trC8a : TrackMetadata :=
  { baseTrack with file_path := "c8a.wav", outro_start := some 0, duration := 300 }

def trC8b : TrackMetadata := { baseTrack with file_path := "c8b.wav" }

def trC8c : TrackMetadata :=
  { baseTrack with file_path := "c8c.wav", outro_start := some 30 }

def trC8d : TrackMetadata :=
  { baseTrack with file_path := "c8d.wav", intro_start := some 12 }

/-- The playlist produced by planning over `libW2` with `arcW`: opener `trW`
(head choice), successor `trW2`, one transition, duration
`360 + (360 − 60) = 660`. -/
def playlistW2 : Playlist :=
  { name := "w arc", journey_arc := arcW, tracks := [trW, trW2],
    transitions := [create_transition trW trW2 60],
    total_duration := 660, created_at := none }

/-!  ## Helper lemmas -/

theorem opt_none_ne_some (a : α) : (none = some a) ↔ False := by
  simp [eq_comm]

theorem prefer_step_isEmpty (c : List TrackMetadata) (p : TrackMetadata → Bool) :
    (prefer_step c p).isEmpty = c.isEmpty := by
  unfold prefer_step
  by_cases h : (c.filter p).isEmpty = true
  · rw [if_pos h]
  · rw [if_neg h]
    have hc : c.isEmpty = false := by
      rcases c with _ | ⟨a, c⟩
      · simp at h
      · rfl
    rw [hc]
    revert h
    cases (c.filter p).isEmpty <;> simp

theorem prefer_step_subset (c : List TrackMetadata) (p : TrackMetadata → Bool) :
    prefer_step c p ⊆ c := by
  simp only [prefer_step]
  split_ifs
  · exact fun x h => h
  · exact (List.filter_sublist _).subset

theorem prefer_chain_isEmpty (M : List TrackMetadata) (g : Bool)
    (f1 f2 f3 : TrackMetadata → Bool) :
    (if g then prefer_step (prefer_step (prefer_step M f1) f2) f3
     else prefer_step (prefer_step M f1) f2).isEmpty = M.isEmpty := by
  split_ifs <;> simp only [prefer_step_isEmpty]

theorem mem_insertDesc (f : α → ℤ) (x a : α) (l : List α) :
    a ∈ insertDesc f x l ↔ a = x ∨ a ∈ l := by
  induction l with
  | nil => simp [insertDesc]
  | cons y ys ih =>
      simp only [insertDesc]
      split_ifs
      · simp [List.mem_cons]
      · simp only [List.mem_cons, ih]
        tauto

theorem mem_foldl_insertDesc (f : α → ℤ) (a : α) :
    ∀ (l acc : List α),
      a ∈ l.foldl (fun acc x => insertDesc f x acc) acc ↔ a ∈ acc ∨ a ∈ l := by
  intro l
  induction l with
  | nil => intro acc; simp
  | cons x xs ih =>
      intro acc
      simp only [List.foldl_cons]
      rw [ih]
      simp only [mem_insertDesc, List.mem_cons]
      tauto

theorem mem_stableSortDesc (f : α → ℤ) (a : α) (l : List α) :
    a ∈ stableSortDesc f l ↔ a ∈ l := by
  unfold stableSortDesc
  rw [mem_foldl_insertDesc]
  simp

theorem length_insertDesc (f : α → ℤ) (x : α) (l : List α) :
    (insertDesc f x l).length = l.length + 1 := by
  induction l with
  | nil => simp [insertDesc]
  | cons y ys ih =>
      simp only [insertDesc]
      split_ifs <;> simp [ih]

theorem length_foldl_insertDesc (f : α → ℤ) :
    ∀ (l acc : List α),
      (l.foldl (fun acc x => insertDesc f x acc) acc).length =
        acc.length + l.length := by
  intro l
  induction l with
  | nil => intro acc; simp
  | cons x xs ih =>
      intro acc
      simp only [List.foldl_cons]
      rw [ih, length_insertDesc]
      simp only [List.length_cons]
      omega

theorem length_stableSortDesc (f : α → ℤ) (l : List α) :
    (stableSortDesc f l).length = l.length := by
  unfold stableSortDesc
  rw [length_foldl_insertDesc]
  simp

theorem select_opener_st_eq (lib : TrackLibrary) (arc : JourneyArc)
    (sk pl : Bool) (choose : Nat → List TrackMetadata → TrackMetadata) :
    select_opener_st lib arc sk pl choose = (lib, select_opener lib arc sk pl choose) :=
  rfl

theorem select_next_track_st_eq (lib : TrackLibrary) (cur : TrackMetadata)
    (e : ℤ) (arc : JourneyArc) (sk pl : Bool) (used : List String)
    (choose : Nat → List TrackMetadata → TrackMetadata) (i : ℕ) :
    select_next_track_st lib cur e arc sk pl used choose i =
      (lib, select_next_track lib cur e arc sk pl used choose i) := by
  simp only [select_next_track_st, select_next_track, get_compatible_tracks_st,
    successor_filtered]
  split_ifs <;> rfl

theorem planLoop_st_eq (arc : JourneyArc) (sk pl : Bool)
    (choose : Nat → List TrackMetadata → TrackMetadata) :
    ∀ (idxs : List ℕ) (lib : TrackLibrary) (cur : TrackMetadata)
      (sel : List TrackMetadata) (trans : List Transition),
      planLoop_st arc sk pl choose lib idxs cur sel trans =
        (lib, planLoop lib arc sk pl choose idxs cur sel trans) := by
  intro idxs
  induction idxs with
  | nil => intro lib cur sel trans; rfl
  | cons i rest ih =>
      intro lib cur sel trans
      simp only [planLoop_st, planLoop, select_next_track_st_eq]
      cases select_next_track lib cur (targetEnergy arc i) arc sk pl
          (sel.map (fun t : TrackMetadata => t.file_path)) choose i
      · rfl
      · exact ih lib _ _ _

theorem generate_playlist_st_eq (lib : TrackLibrary) (arc : JourneyArc)
    (sk pl : Bool) (choose : Nat → List TrackMetadata → TrackMetadata) :
    generate_playlist_st lib arc sk pl choose =
      (lib, generate_playlist lib arc sk pl choose) := by
  simp only [generate_playlist_st, generate_playlist, select_opener_st_eq]
  cases select_opener lib arc sk pl choose
  · rfl
  · simp only [planLoop_st_eq]

theorem prefer_step_ne_nil (c : List TrackMetadata) (p : TrackMetadata → Bool)
    (hc : c ≠ []) : prefer_step c p ≠ [] := by
  intro h0
  have h1 := prefer_step_isEmpty c p
  rw [h0] at h1
  simp only [List.isEmpty_nil] at h1
  exact hc (List.isEmpty_iff.1 h1.symm)

theorem select_opener_none_iff (lib : TrackLibrary) (arc : JourneyArc)
    (sk pl : Bool) (choose : Nat → List TrackMetadata → TrackMetadata) :
    select_opener lib arc sk pl choose = none ↔
      opener_mandatory_candidates lib arc sk = [] := by
  simp only [select_opener]
  rw [prefer_chain_isEmpty]
  by_cases h : (opener_mandatory_candidates lib arc sk).isEmpty = true
  · rw [if_pos h]
    simp [List.isEmpty_iff.1 h]
  · rw [if_neg h]
    constructor
    · intro hx; simp at hx
    · intro hM; rw [hM] at h; simp at h

theorem pick_ne_none (c : List TrackMetadata) (hc : c ≠ [])
    (score : TrackMetadata → ℤ)
    (choose : Nat → List TrackMetadata → TrackMetadata) (i : ℕ) :
    (if (stableSortDesc (fun p => p.2) (c.map (fun t => (t, score t)))).length ≤ 3
     then ((stableSortDesc (fun p => p.2) (c.map (fun t => (t, score t)))).head?).map
       (fun p => p.1)
     else some (choose i (((stableSortDesc (fun p => p.2)
       (c.map (fun t => (t, score t)))).take 3).map (fun p => p.1)))) ≠ none := by
  split_ifs with hlen
  · rw [Ne, Option.map_eq_none']
    intro hx
    have h0 := List.head?_eq_none_iff.1 hx
    have h1 := congrArg List.length h0
    rw [length_stableSortDesc, List.length_map] at h1
    simp only [List.length_nil] at h1
    exact hc (List.length_eq_zero.1 h1)
  · exact Option.some_ne_none _

theorem pick_mem (c : List TrackMetadata) (score : TrackMetadata → ℤ)
    (choose : Nat → List TrackMetadata → TrackMetadata) (i : ℕ) (t : TrackMetadata)
    (Hchoose : ∀ n l, l ≠ [] → choose n l ∈ l)
    (h : (if (stableSortDesc (fun p => p.2) (c.map (fun t => (t, score t)))).length ≤ 3
     then ((stableSortDesc (fun p => p.2) (c.map (fun t => (t, score t)))).head?).map
       (fun p => p.1)
     else some (choose i (((stableSortDesc (fun p => p.2)
       (c.map (fun t => (t, score t)))).take 3).map (fun p => p.1)))) = some t) :
    t ∈ c := by
  split_ifs at h with hlen
  · rcases Option.map_eq_some'.1 h with ⟨pr, hpr, rfl⟩
    have hmem : pr ∈ stableSortDesc (fun p => p.2) (c.map (fun t => (t, score t))) :=
      List.mem_of_mem_head? hpr
    have hmem2 := (mem_stableSortDesc _ _ _).1 hmem
    rcases List.mem_map.1 hmem2 with ⟨u, hu, hup⟩
    cases hup
    simpa using hu
  · injection h with h1
    have hne : (((stableSortDesc (fun p => p.2)
        (c.map (fun t => (t, score t)))).take 3).map (fun p => p.1)) ≠ [] := by
      intro h0
      rw [List.map_eq_nil_iff] at h0
      rcases List.take_eq_nil_iff.1 h0 with h1 | h1 <;>
        first
          | omega
          | (rw [h1] at hlen; simp at hlen)
    have hcm := Hchoose i _ hne
    rw [h1] at hcm
    rcases List.mem_map.1 hcm with ⟨pr, hpr, hpt⟩
    have hmem : pr ∈ stableSortDesc (fun p => p.2) (c.map (fun t => (t, score t))) :=
      List.take_subset _ _ hpr
    have hmem2 := (mem_stableSortDesc _ _ _).1 hmem
    rcases List.mem_map.1 hmem2 with ⟨u, hu, hup⟩
    cases hup
    cases hpt
    simpa using hu

theorem select_next_track_none_iff (lib : TrackLibrary) (cur : TrackMetadata)
    (e : ℤ) (arc : JourneyArc) (sk pl : Bool) (used : List String)
    (choose : Nat → List TrackMetadata → TrackMetadata) (i : ℕ) :
    select_next_track lib cur e arc sk pl used choose i = none ↔
      successor_filtered lib cur e arc sk used = [] := by
  simp only [select_next_track]
  by_cases h : (successor_filtered lib cur e arc sk used).isEmpty = true
  · rw [if_pos h]
    simp [List.isEmpty_iff.1 h]
  · rw [if_neg h]
    have hF : successor_filtered lib cur e arc sk used ≠ [] := by
      intro h0; rw [h0] at h; simp at h
    constructor
    · intro hx
      exfalso
      rcases hk : cur.key with _ | ck
      · simp only [hk] at hx
        by_cases hg : (pl && !arc.preferred_labels.isEmpty) = true
        · rw [if_pos hg] at hx
          exact pick_ne_none _ (prefer_step_ne_nil _ _ hF) _ choose i hx
        · rw [if_neg hg] at hx
          exact pick_ne_none _ hF _ choose i hx
      · simp only [hk] at hx
        by_cases hg : (pl && !arc.preferred_labels.isEmpty) = true
        · rw [if_pos hg] at hx
          exact pick_ne_none _
            (prefer_step_ne_nil _ _ (prefer_step_ne_nil _ _ hF)) _ choose i hx
        · rw [if_neg hg] at hx
          exact pick_ne_none _ (prefer_step_ne_nil _ _ hF) _ choose i hx
    · intro h0; exact absurd h0 hF

theorem select_next_track_mem (lib : TrackLibrary) (cur : TrackMetadata)
    (e : ℤ) (arc : JourneyArc) (sk pl : Bool) (used : List String)
    (choose : Nat → List TrackMetadata → TrackMetadata) (i : ℕ) (t : TrackMetadata)
    (Hchoose : ∀ n l, l ≠ [] → choose n l ∈ l)
    (h : select_next_track lib cur e arc sk pl used choose i = some t) :
    t ∈ lib.tracks ∧ t.file_path ∉ used := by
  have hmem : t ∈ successor_filtered lib cur e arc sk used := by
    revert h
    simp only [select_next_track]
    by_cases hE : (successor_filtered lib cur e arc sk used).isEmpty = true
    · rw [if_pos hE]
      intro h; cases h
    · rw [if_neg hE]
      intro h
      rcases hk : cur.key with _ | ck
      · simp only [hk] at h
        by_cases hg : (pl && !arc.preferred_labels.isEmpty) = true
        · rw [if_pos hg] at h
          exact prefer_step_subset _ _ (pick_mem _ _ choose i t Hchoose h)
        · rw [if_neg hg] at h
          exact pick_mem _ _ choose i t Hchoose h
      · simp only [hk] at h
        by_cases hg : (pl && !arc.preferred_labels.isEmpty) = true
        · rw [if_pos hg] at h
          exact prefer_step_subset _ _
            (prefer_step_subset _ _ (pick_mem _ _ choose i t Hchoose h))
        · rw [if_neg hg] at h
          exact prefer_step_subset _ _ (pick_mem _ _ choose i t Hchoose h)
  simp only [successor_filtered, List.mem_filter, decide_eq_true_eq] at hmem
  obtain ⟨⟨⟨hcomp, hused⟩, _⟩, _⟩ := hmem
  refine ⟨?_, hused⟩
  unfold get_compatible_tracks at hcomp
  exact (List.mem_filter.1 hcomp).1

theorem prefer_chain_subset (M : List TrackMetadata) (g : Bool)
    (f1 f2 f3 : TrackMetadata → Bool) :
    (if g then prefer_step (prefer_step (prefer_step M f1) f2) f3
     else prefer_step (prefer_step M f1) f2) ⊆ M := by
  split_ifs
  · exact fun x hx =>
      prefer_step_subset _ _ (prefer_step_subset _ _ (prefer_step_subset _ _ hx))
  · exact fun x hx => prefer_step_subset _ _ (prefer_step_subset _ _ hx)

theorem opener_mandatory_subset (lib : TrackLibrary) (arc : JourneyArc)
    (sk : Bool) : opener_mandatory_candidates lib arc sk ⊆ lib.tracks := by
  intro u hu
  simp only [opener_mandatory_candidates] at hu
  have hu2 : u ∈ (find_tracks_by_bpm_range lib arc.bpm_range.1 arc.bpm_range.2).filter
      (fun t => decide (|t.energy_level -
        (match arc.energy_curve with | [] => 2 | e :: _ => e)| ≤ 1)) := by
    rcases hsk : sk with _ | _ <;> rw [hsk] at hu
    · exact hu
    · rcases hkc : arc.key_center with _ | kc <;> rw [hkc] at hu
      · exact hu
      · exact (List.filter_sublist _).subset hu
  have hu3 := (List.filter_sublist _).subset hu2
  unfold find_tracks_by_bpm_range at hu3
  exact (List.filter_sublist _).subset hu3

theorem opener_pick_mem (c : List TrackMetadata)
    (choose : Nat → List TrackMetadata → TrackMetadata) (t : TrackMetadata)
    (Hchoose : ∀ n l, l ≠ [] → choose n l ∈ l)
    (h : (if c.isEmpty then none else some (choose 0 c)) = some t) : t ∈ c := by
  split_ifs at h with hE
  rw [← Option.some.inj h]
  exact Hchoose 0 c (fun h0 => hE (by rw [h0]; rfl))

theorem select_opener_mem (lib : TrackLibrary) (arc : JourneyArc)
    (sk pl : Bool) (choose : Nat → List TrackMetadata → TrackMetadata)
    (t : TrackMetadata) (Hchoose : ∀ n l, l ≠ [] → choose n l ∈ l)
    (h : select_opener lib arc sk pl choose = some t) : t ∈ lib.tracks := by
  revert h
  simp only [select_opener]
  intro h
  have htc := opener_pick_mem _ choose t Hchoose h
  exact opener_mandatory_subset lib arc sk (prefer_chain_subset _ _ _ _ _ htc)

theorem gb_opening_mem_bound {third : ℕ} {e : ℤ} (h : e ∈ gb_opening third) :
    2 ≤ e ∧ e ≤ 4 := by
  simp only [gb_opening, List.mem_map, List.mem_range] at h
  obtain ⟨i, hi, rfl⟩ := h
  have := Nat.mod_lt i (show 0 < 3 by norm_num)
  omega

theorem gb_build_mem_bound {third : ℕ} {e : ℤ} (h : e ∈ gb_build third) :
    4 ≤ e ∧ e ≤ 6 := by
  simp only [gb_build, List.mem_map, List.mem_range] at h
  obtain ⟨i, hi, rfl⟩ := h
  have hpos : 0 < third := by omega
  have hd : (3 * i) / third < 3 := (Nat.div_lt_iff_lt_mul hpos).2 (by omega)
  generalize hk : (3 * i) / third = k at hd ⊢
  omega

theorem gb_descent_mem_bound {n third : ℕ} {e : ℤ} (h : e ∈ gb_descent n third) :
    5 ≤ e ∧ e ≤ 7 := by
  simp only [gb_descent, List.mem_map, List.mem_range] at h
  obtain ⟨i, hi, rfl⟩ := h
  refine ⟨le_max_right _ _, max_le ?_ (by norm_num)⟩
  have : (0 : ℤ) ≤ (((2 * i) / (n - 2 * third - i) : ℕ) : ℤ) := Int.natCast_nonneg _
  omega

theorem pd_build_mem_bound {peak_at : ℕ} {e : ℤ} (h : e ∈ pd_build peak_at) :
    2 ≤ e ∧ e ≤ 7 := by
  simp only [pd_build, List.mem_map, List.mem_range] at h
  obtain ⟨i, hi, rfl⟩ := h
  have hpos : 0 < peak_at := by omega
  have hd : (6 * i) / peak_at < 6 := (Nat.div_lt_iff_lt_mul hpos).2 (by omega)
  generalize hk : (6 * i) / peak_at = k at hd ⊢
  omega

theorem pd_descent_mem_bound {n peak_at : ℕ} {e : ℤ} (h : e ∈ pd_descent n peak_at) :
    3 ≤ e ∧ e ≤ 8 := by
  simp only [pd_descent, List.mem_map, List.mem_range] at h
  obtain ⟨i, hi, rfl⟩ := h
  refine ⟨le_max_right _ _, max_le ?_ (by norm_num)⟩
  have : (0 : ℤ) ≤ (((5 * i) / (n - peak_at) : ℕ) : ℤ) := Int.natCast_nonneg _
  omega

/-!  ## C1 — tempo-compatibility characterization of `get_compatible_tracks` -/

/-- C1: for every pair of tracks and tolerance `p`, `get_compatible_tracks`
(with `key_compatible_only = False`) judges a library track compatible with
the reference exactly when it differs from the reference and the tempo
quotient is within `p`% of 1.0, 2.0 or 0.5; in particular at 6% tolerance
120 vs 240 BPM is compatible via the 2:1 / 1:2 bands while 120 vs 128 BPM
matches no band, also on the concrete three-track library `lib1`. -/
theorem get_compatible_tracks_tempo_spec :
    (∀ (lib : TrackLibrary) (ref t : TrackMetadata) (p : ℚ),
        t ∈ get_compatible_tracks lib ref p false ↔
          t ∈ lib.tracks ∧ t ≠ ref ∧
            (tempo_band (t.bpm / ref.bpm) 1 p ∨ tempo_band (t.bpm / ref.bpm) 2 p ∨
             tempo_band (t.bpm / ref.bpm) (1/2) p))
    ∧ tempo_band ((240 : ℚ) / 120) 2 6
    ∧ tempo_band ((120 : ℚ) / 240) (1/2) 6
    ∧ ¬ (tempo_band ((128 : ℚ) / 120) 1 6 ∨ tempo_band ((128 : ℚ) / 120) 2 6 ∨
         tempo_band ((128 : ℚ) / 120) (1/2) 6)
    ∧ ¬ (tempo_band ((120 : ℚ) / 128) 1 6 ∨ tempo_band ((120 : ℚ) / 128) 2 6 ∨
         tempo_band ((120 : ℚ) / 128) (1/2) 6)
    ∧ tr240 ∈ get_compatible_tracks lib1 tr120 6 false
    ∧ tr128 ∉ get_compatible_tracks lib1 tr120 6 false := by
  refine ⟨?_, ?_, ?_, ?_, ?_, ?_, ?_⟩
  · intro lib ref t p
    simp only [one_div]
    simp only [get_compatible_tracks, List.mem_filter]
    constructor
    · rintro ⟨ht, hb⟩
      by_cases h1 : t = ref
      · simp [h1] at hb
      · by_cases h2 : tempo_band (t.bpm / ref.bpm) 1 p ∨
            tempo_band (t.bpm / ref.bpm) 2 p ∨ tempo_band (t.bpm / ref.bpm) 2⁻¹ p
        · exact ⟨ht, h1, h2⟩
        · simp [h1, h2] at hb
    · rintro ⟨ht, h1, h2⟩
      refine ⟨ht, ?_⟩
      simp [h1, h2]
  · simp only [tempo_band, abs_le]; norm_num
  · simp only [tempo_band, abs_le]; norm_num
  · simp only [tempo_band, abs_le]; norm_num
  · simp only [tempo_band, abs_le]; norm_num
  · norm_num [get_compatible_tracks, lib1, tr120, tr240, tr128, baseTrack,
      tempo_band, List.filter_cons, List.filter_nil, lt_abs]
  · norm_num [get_compatible_tracks, lib1, tr120, tr240, tr128, baseTrack,
      tempo_band, List.filter_cons, List.filter_nil, lt_abs]

/-!  ## C3 — the texture-variety bonus -/

/-- C3 counterexample: with `current.textures = [ATMOSPHERIC]` and
`candidate.textures = [DUB]` the candidate shares *zero* of the current
track's textures, yet the scorer's texture-variety term still awards +10 —
refuting "the bonus is awarded exactly when the candidate shares at least
one but not all of the current track's textures". -/
theorem texture_bonus_zero_overlap_cex :
    texture_variety_bonus trTexA trTexB = 10 ∧
      ∀ x ∈ trTexA.textures, x ∉ trTexB.textures := by
  constructor
  · decide
  · decide

/-- C3 amended: the +10 texture-variety bonus is awarded exactly when both
texture lists are non-empty and the number of distinct shared textures is
strictly below the length of the current track's texture list; in
particular a candidate sharing *zero* of the current track's textures
(but having textures of its own) does receive the bonus. -/
theorem texture_bonus_spec :
    ∀ current candidate : TrackMetadata,
      (texture_variety_bonus current candidate = 10 ↔
        current.textures ≠ [] ∧ candidate.textures ≠ [] ∧
          (current.textures.dedup.filter
              (fun x => decide (x ∈ candidate.textures))).length
            < current.textures.length)
      ∧ (current.textures ≠ [] → candidate.textures ≠ [] →
          (∀ x ∈ current.textures, x ∉ candidate.textures) →
          texture_variety_bonus current candidate = 10) := by
  have aux : ∀ current candidate : TrackMetadata,
      texture_variety_bonus current candidate = 10 ↔
        current.textures ≠ [] ∧ candidate.textures ≠ [] ∧
          (current.textures.dedup.filter
              (fun x => decide (x ∈ candidate.textures))).length
            < current.textures.length := by
    intro current candidate
    unfold texture_variety_bonus
    split_ifs with h1 h2
    · simp only [Bool.or_eq_true, List.isEmpty_iff] at h1
      constructor
      · intro h; exact absurd h (by norm_num)
      · rintro ⟨ha, hb, _⟩; rcases h1 with h | h
        · exact absurd h ha
        · exact absurd h hb
    · simp only [Bool.or_eq_true, List.isEmpty_iff] at h1
      push_neg at h1
      exact ⟨fun _ => ⟨h1.1, h1.2, h2⟩, fun _ => rfl⟩
    · simp only [Bool.or_eq_true, List.isEmpty_iff] at h1
      constructor
      · intro h; exact absurd h (by norm_num)
      · rintro ⟨_, _, hlen⟩; exact absurd hlen h2
  intro current candidate
  refine ⟨aux current candidate, ?_⟩
  intro h1 h2 h3
  refine (aux current candidate).2 ⟨h1, h2, ?_⟩
  have hf : current.textures.dedup.filter
      (fun x => decide (x ∈ candidate.textures)) = [] := by
    rw [List.filter_eq_nil_iff]
    intro a ha
    simpa using h3 a (List.mem_dedup.1 ha)
  rw [hf]
  simpa using List.length_pos.2 h1

/-- C3 witness: the amended characterization applied to the concrete pair
with disjoint texture sets. -/
theorem texture_bonus_spec_witness : texture_variety_bonus trTexA trTexB = 10 :=
  (texture_bonus_spec trTexA trTexB).2 (by decide) (by decide) (by decide)

/-!  ## C4 — the energy curve always has exactly the requested length -/

/-- C4: for every track count and progression kind (including
`gradual_build`, whose final segment iterates `num_tracks - len(curve)`
times and therefore self-corrects), the generated energy curve has exactly
`num_tracks` entries. -/
theorem energy_curve_length_exact :
    ∀ (num_tracks : ℕ) (progression : String),
      (generate_energy_curve num_tracks progression).length = num_tracks := by
  intro n prog
  unfold generate_energy_curve
  split_ifs with h1 h2 h3
  · simp only [List.length_take, List.length_append, gb_opening, gb_build,
      gb_descent, List.length_map, List.length_range]
    omega
  · simp only [List.length_take, List.length_append, pd_build, pd_descent,
      List.length_map, List.length_range]
    omega
  · simp
  · simp

/-!  ## C5 — tempo-band symmetry under quotient inversion -/

/-- C5 counterexample: at 6% tolerance the quotient 54/100 lies in the 1:2
band, but its inverse 100/54 does *not* lie in the 2:1 band — refuting the
"vice versa" direction of the claimed symmetry. -/
theorem tempo_inversion_converse_cex :
    tempo_band ((54 : ℚ) / 100) (1/2) 6 ∧ ¬ tempo_band ((100 : ℚ) / 54) 2 6 := by
  simp only [tempo_band, abs_le]
  norm_num

/-- C5 amended: for positive tempos and any tolerance percentage up to 100,
the *forward* direction holds — if `t1/t2` is within tolerance of 2.0 then
`t2/t1` is within tolerance of 0.5.  (The converse fails, see the
counterexample.) -/
theorem tempo_inversion_forward :
    ∀ t1 t2 tol : ℚ, 0 < t1 → 0 < t2 → 0 ≤ tol → tol ≤ 100 →
      tempo_band (t1 / t2) 2 tol → tempo_band (t2 / t1) (1/2) tol := by
  intro t1 t2 tol h1 h2 h3 h4 h5
  unfold tempo_band at h5 ⊢
  have hrr : t2 / t1 = (t1 / t2)⁻¹ := by rw [inv_div]
  rw [hrr]
  have hr : 0 < t1 / t2 := div_pos h1 h2
  revert h5
  generalize t1 / t2 = r at hr
  intro h5
  have hc1 : tol / 100 ≤ 1 := by linarith
  have hab := abs_le.1 h5
  have hr1 : 1 ≤ r := by linarith [hab.1]
  have hz : r ≠ 0 := ne_of_gt hr
  have key : r⁻¹ - 1/2 = (2 - r) / (2 * r) := by
    rw [inv_eq_one_div, div_sub_div 1 1 hz two_ne_zero]
    ring_nf
  rw [key, abs_div, abs_of_pos (by positivity : (0:ℚ) < 2 * r),
    abs_sub_comm 2 r]
  have h2r : 1 ≤ 2 * r := by linarith
  exact le_trans (div_le_self (abs_nonneg _) h2r) h5

/-- C5 witness: the forward direction at the concrete 240/120 pair. -/
theorem tempo_inversion_forward_witness : tempo_band ((120 : ℚ) / 240) (1/2) 6 :=
  tempo_inversion_forward 240 120 6 (by norm_num) (by norm_num) (by norm_num)
    (by norm_num) (by simp only [tempo_band, abs_le]; norm_num)

/-!  ## C6 — energy-curve values stay in [1,10]; descent floors -/

/-- C6: for the three named progressions every generated energy value lies
in [1,10]; moreover the descent floors are hard clamps — every element of
the `gradual_build` descent segment is ≥ 5 and every element of the
`peak_and_descent` descent segment is ≥ 3, for *all* segment parameters. -/
theorem energy_curve_range :
    (∀ (n : ℕ) (prog : String),
        prog = "gradual_build" ∨ prog = "peak_and_descent" ∨ prog = "steady" →
        ∀ e ∈ generate_energy_curve n prog, 1 ≤ e ∧ e ≤ 10)
    ∧ (∀ n third : ℕ, ∀ e ∈ gb_descent n third, 5 ≤ e)
    ∧ (∀ n peak_at : ℕ, ∀ e ∈ pd_descent n peak_at, 3 ≤ e) := by
  refine ⟨?_, ?_, ?_⟩
  · intro n prog hp e he
    rcases hp with h | h | h <;> subst h <;> unfold generate_energy_curve at he
    · rw [if_pos rfl] at he
      have he' := List.take_subset _ _ he
      rcases List.mem_append.1 he' with h' | h'
      · rcases List.mem_append.1 h' with h'' | h''
        · have := gb_opening_mem_bound h''; omega
        · have := gb_build_mem_bound h''; omega
      · have := gb_descent_mem_bound h'; omega
    · rw [if_neg (by decide), if_pos rfl] at he
      have he' := List.take_subset _ _ he
      rcases List.mem_append.1 he' with h' | h'
      · have := pd_build_mem_bound h'; omega
      · have := pd_descent_mem_bound h'; omega
    · rw [if_neg (by decide), if_neg (by decide), if_pos rfl] at he
      simp only [List.mem_map, List.mem_range] at he
      obtain ⟨i, hi, rfl⟩ := he
      have := Nat.mod_lt i (show 0 < 2 by norm_num)
      omega
  · intro n third e he; exact (gb_descent_mem_bound he).1
  · intro n peak_at e he; exact (pd_descent_mem_bound he).1

/-- C6 witness: the range bound applied to a concrete element of a concrete
`gradual_build` curve. -/
theorem energy_curve_range_witness : 1 ≤ (2 : ℤ) ∧ (2 : ℤ) ≤ 10 :=
  energy_curve_range.1 7 "gradual_build" (Or.inl rfl) 2 (by decide)

/-!  ## C8 — transition fade timing -/

/-- C8 counterexample: a *present* outro marker equal to 0.0 is falsy in
Python, so the planner ignores it and uses `max(0, duration − blend)` —
refuting "the fade-out start equals the outro marker whenever the marker is
present". -/
theorem transition_zero_outro_cex :
    trC8a.outro_start = some 0 ∧
      (create_transition trC8a trC8b 60).start_time_a = 240 ∧ (240 : ℚ) ≠ 0 := by
  refine ⟨rfl, ?_, by norm_num⟩
  norm_num [create_transition, trC8a, trC8b, baseTrack]

/-- C8 amended: the fade-out start equals the outro marker when it is
present *and non-zero*, and `max(0, duration − blend)` when the marker is
absent or zero; the fade-in start equals the intro marker when present
(a present zero marker coincides with the fallback 0) and 0 otherwise. -/
theorem transition_times_spec :
    ∀ (a b : TrackMetadata) (blend : ℚ),
      ((a.outro_start = none ∨ a.outro_start = some 0) →
        (create_transition a b blend).start_time_a = max 0 (a.duration - blend))
      ∧ (∀ v, a.outro_start = some v → v ≠ 0 →
          (create_transition a b blend).start_time_a = v)
      ∧ (b.intro_start = none → (create_transition a b blend).start_time_b = 0)
      ∧ (∀ v, b.intro_start = some v → (create_transition a b blend).start_time_b = v) := by
  intro a b blend
  refine ⟨?_, ?_, ?_, ?_⟩
  · rintro (h | h) <;> simp [create_transition, h]
  · intro v h hv; simp [create_transition, h, hv]
  · intro h; simp [create_transition, h]
  · intro v h
    by_cases hv : v = 0 <;> simp [create_transition, h, hv]

/-- C8 witness: the amended timing rules at a concrete pair with non-zero
markers. -/
theorem transition_times_spec_witness :
    (create_transition trC8c trC8d 60).start_time_a = 30 ∧
      (create_transition trC8c trC8d 60).start_time_b = 12 :=
  ⟨(transition_times_spec trC8c trC8d 60).2.1 30 rfl (by norm_num),
   (transition_times_spec trC8c trC8d 60).2.2.2 12 rfl⟩

/-!  ## Loop lemmas -/

theorem chooseDefault_mem :
    ∀ (n : ℕ) (l : List TrackMetadata), l ≠ [] → chooseDefault n l ∈ l := by
  intro n l h
  cases l with
  | nil => exact absurd rfl h
  | cons a as => simp [chooseDefault]

theorem planLoop_stop (lib : TrackLibrary) (arc : JourneyArc) (sk pl : Bool)
    (choose : Nat → List TrackMetadata → TrackMetadata) (i : ℕ) (rest : List ℕ)
    (cur : TrackMetadata) (sel : List TrackMetadata) (trans : List Transition)
    (h : select_next_track lib cur (targetEnergy arc i) arc sk pl
        (sel.map (fun t : TrackMetadata => t.file_path)) choose i = none) :
    planLoop lib arc sk pl choose (i :: rest) cur sel trans = (sel, trans) := by
  simp only [planLoop, h]

theorem planLoop_shape (lib : TrackLibrary) (arc : JourneyArc) (sk pl : Bool)
    (choose : Nat → List TrackMetadata → TrackMetadata) :
    ∀ (idxs : List ℕ) (cur : TrackMetadata) (sel : List TrackMetadata)
      (trans : List Transition),
      trans.length + 1 = sel.length →
      (planLoop lib arc sk pl choose idxs cur sel trans).2.length + 1 =
          (planLoop lib arc sk pl choose idxs cur sel trans).1.length
        ∧ sel.length ≤ (planLoop lib arc sk pl choose idxs cur sel trans).1.length := by
  intro idxs
  induction idxs with
  | nil =>
      intro cur sel trans h
      simp only [planLoop]
      exact ⟨h, Nat.le_refl _⟩
  | cons i rest ih =>
      intro cur sel trans h
      simp only [planLoop]
      cases hs : select_next_track lib cur (targetEnergy arc i) arc sk pl
          (sel.map (fun t : TrackMetadata => t.file_path)) choose i with
      | none =>
          simp only []
          exact ⟨h, Nat.le_refl _⟩
      | some next =>
          simp only []
          have hnext := ih next (sel ++ [next])
            (trans ++ [create_transition cur next arc.blend_duration])
            (by simp only [List.length_append, List.length_cons, List.length_nil]; omega)
          refine ⟨hnext.1, ?_⟩
          calc sel.length ≤ (sel ++ [next]).length := by simp
            _ ≤ _ := hnext.2

theorem planLoop_mem (lib : TrackLibrary) (arc : JourneyArc) (sk pl : Bool)
    (choose : Nat → List TrackMetadata → TrackMetadata)
    (Hchoose : ∀ n l, l ≠ [] → choose n l ∈ l) :
    ∀ (idxs : List ℕ) (cur : TrackMetadata) (sel : List TrackMetadata)
      (trans : List Transition),
      (∀ u ∈ sel, u ∈ lib.tracks) →
      ∀ t ∈ (planLoop lib arc sk pl choose idxs cur sel trans).1, t ∈ lib.tracks := by
  intro idxs
  induction idxs with
  | nil =>
      intro cur sel trans hsel
      simpa only [planLoop] using hsel
  | cons i rest ih =>
      intro cur sel trans hsel
      simp only [planLoop]
      cases hs : select_next_track lib cur (targetEnergy arc i) arc sk pl
          (sel.map (fun t : TrackMetadata => t.file_path)) choose i with
      | none =>
          simpa only [] using hsel
      | some next =>
          simp only []
          apply ih
          intro u hu
          rcases List.mem_append.1 hu with hu | hu
          · exact hsel u hu
          · rw [List.mem_singleton.1 hu]
            exact (select_next_track_mem lib cur (targetEnergy arc i) arc sk pl
              _ choose i next Hchoose hs).1

theorem planLoop_nodup (lib : TrackLibrary) (arc : JourneyArc) (sk pl : Bool)
    (choose : Nat → List TrackMetadata → TrackMetadata)
    (Hchoose : ∀ n l, l ≠ [] → choose n l ∈ l) :
    ∀ (idxs : List ℕ) (cur : TrackMetadata) (sel : List TrackMetadata)
      (trans : List Transition),
      (sel.map (fun t : TrackMetadata => t.file_path)).Nodup →
      ((planLoop lib arc sk pl choose idxs cur sel trans).1.map
        (fun t : TrackMetadata => t.file_path)).Nodup := by
  intro idxs
  induction idxs with
  | nil =>
      intro cur sel trans hsel
      simpa only [planLoop] using hsel
  | cons i rest ih =>
      intro cur sel trans hsel
      simp only [planLoop]
      cases hs : select_next_track lib cur (targetEnergy arc i) arc sk pl
          (sel.map (fun t : TrackMetadata => t.file_path)) choose i with
      | none =>
          simpa only [] using hsel
      | some next =>
          simp only []
          apply ih
          have hnotin := (select_next_track_mem lib cur (targetEnergy arc i) arc sk pl
            _ choose i next Hchoose hs).2
          simp only [List.map_append, List.map_cons, List.map_nil, List.nodup_append,
            List.nodup_cons, List.nodup_nil, List.disjoint_singleton]
          exact ⟨hsel, by simp, by simpa using hnotin⟩

/-!  ## C2 — opener failure semantics -/

/-- C2 counterexample: with `strict_key` set and a key center present, the
harmonic filter empties a *non-empty* tempo+energy candidate set and the
planner raises the no-opener error — refuting both "the error is raised iff
no track lies in the tempo range with energy within ±1 of the curve's first
value" and "every later narrowing step is skipped when it would leave the
candidate set empty". -/
theorem strict_key_opener_failure_cex :
    ((find_tracks_by_bpm_range libC2 118 124).filter
        (fun t => decide (|t.energy_level - 2| ≤ 1))) ≠ []
    ∧ generate_playlist libC2 arcC2 true true chooseDefault =
        Except.error "No suitable opener found in library" := by
  constructor
  · norm_num [find_tracks_by_bpm_range, libC2, trC2, baseTrack,
      List.filter_cons, List.filter_nil]
  · norm_num [generate_playlist, select_opener, opener_mandatory_candidates,
      prefer_step, find_tracks_by_bpm_range, libC2, arcC2, trC2, baseTrack,
      List.filter_cons, List.filter_nil, opt_none_ne_some,
      show are_keys_compatible MusicalKey.A_MINOR MusicalKey.A_FLAT_MINOR = false
        from by decide]

/-- C2 amended: `generate_playlist` raises the no-opener error exactly when
the *mandatory* opener filters leave no candidate — the tempo-range+energy
filter and, when `strict_key` is set with a key center, the harmonic filter
(which the code applies without an emptiness fallback).  The preference
steps (opener position, atmospheric/minimal texture, preferred label)
revert on emptiness and never cause the error; in the error case only
`Except.error` is produced, so no partial playlist is returned. -/
theorem no_opener_error_iff :
    ∀ (lib : TrackLibrary) (arc : JourneyArc) (sk pl : Bool)
      (choose : Nat → List TrackMetadata → TrackMetadata),
      generate_playlist lib arc sk pl choose =
          Except.error "No suitable opener found in library" ↔
        opener_mandatory_candidates lib arc sk = [] := by
  intro lib arc sk pl choose
  rw [← select_opener_none_iff lib arc sk pl choose]
  unfold generate_playlist
  cases h : select_opener lib arc sk pl choose
  · simp
  · simp

/-!  ## C7 — successor exhaustion truncates instead of raising -/

/-- C7: the successor search returns `None` exactly when the mandatory
energy/tempo/used filters leave no candidate; at such a point the loop
stops and returns exactly the tracks and transitions selected so far; and
whenever an opener exists `generate_playlist` returns (never raises) a
playlist with `k ≥ 1` tracks and exactly `k − 1` transitions. -/
theorem truncation_returns_partial :
    (∀ (lib : TrackLibrary) (cur : TrackMetadata) (e : ℤ) (arc : JourneyArc)
        (sk pl : Bool) (used : List String)
        (choose : Nat → List TrackMetadata → TrackMetadata) (i : ℕ),
        select_next_track lib cur e arc sk pl used choose i = none ↔
          successor_filtered lib cur e arc sk used = [])
    ∧ (∀ (lib : TrackLibrary) (arc : JourneyArc) (sk pl : Bool)
        (choose : Nat → List TrackMetadata → TrackMetadata) (i : ℕ)
        (rest : List ℕ) (cur : TrackMetadata) (sel : List TrackMetadata)
        (trans : List Transition),
        select_next_track lib cur (targetEnergy arc i) arc sk pl
            (sel.map (fun t : TrackMetadata => t.file_path)) choose i = none →
        planLoop lib arc sk pl choose (i :: rest) cur sel trans = (sel, trans))
    ∧ (∀ (lib : TrackLibrary) (arc : JourneyArc) (sk pl : Bool)
        (choose : Nat → List TrackMetadata → TrackMetadata) (t0 : TrackMetadata),
        select_opener lib arc sk pl choose = some t0 →
        ∃ p, generate_playlist lib arc sk pl choose = Except.ok p ∧
          1 ≤ p.tracks.length ∧ p.transitions.length + 1 = p.tracks.length) := by
  refine ⟨select_next_track_none_iff, planLoop_stop, ?_⟩
  intro lib arc sk pl choose t0 h
  unfold generate_playlist
  rw [h]
  have hsh := planLoop_shape lib arc sk pl choose
    (List.range' 1 (arc.num_tracks - 1)) t0 [t0] [] (by simp)
  exact ⟨_, rfl, by simpa using hsh.2, hsh.1⟩

/-- C7 witness: on a one-track library with a two-track arc the first
successor search is empty, the loop stops with the opener alone, and the
planner returns a one-track playlist with zero transitions. -/
theorem truncation_returns_partial_witness :
    planLoop libW arcW false false chooseDefault [1] trW [trW] [] = ([trW], [])
    ∧ ∃ p, generate_playlist libW arcW false false chooseDefault = Except.ok p ∧
        1 ≤ p.tracks.length ∧ p.transitions.length + 1 = p.tracks.length := by
  constructor
  · exact truncation_returns_partial.2.1 libW arcW false false chooseDefault 1 []
      trW [trW] []
      (by norm_num [select_next_track, successor_filtered, get_compatible_tracks,
        libW, arcW, trW, baseTrack, List.filter_cons, List.filter_nil,
        tempo_band, targetEnergy])
  · exact truncation_returns_partial.2.2 libW arcW false false chooseDefault trW
      (by norm_num [select_opener, opener_mandatory_candidates, prefer_step,
        find_tracks_by_bpm_range, libW, arcW, trW, baseTrack,
        List.filter_cons, List.filter_nil, chooseDefault, List.headD,
        opt_none_ne_some])

/-!  ## C9 — planning leaves the Track Store unchanged -/

/-- Evaluation of the two-track planning run used by the C9/C10 witnesses. -/
theorem generate_playlist_libW2_eval :
    generate_playlist libW2 arcW false false chooseDefault =
      Except.ok playlistW2 := by
  norm_num [generate_playlist, select_opener, opener_mandatory_candidates,
    prefer_step, select_next_track, successor_filtered, get_compatible_tracks,
    find_tracks_by_bpm_range, libW2, arcW, trW, trW2, baseTrack, playlistW2,
    List.filter_cons, List.filter_nil, chooseDefault, List.headD,
    opt_none_ne_some, planLoop, targetEnergy, tempo_band,
    score_track_compatibility, texture_variety_bonus, stableSortDesc,
    insertDesc, calculate_duration, List.range', create_transition, abs_le,
    show ¬ ("w2.wav" = "w1.wav") from by decide,
    show ¬ ("w1.wav" = "w2.wav") from by decide]

/-- C9: the state-threaded planner returns the Track Store exactly as it
received it — primary list and both indexes — and every track of a
returned playlist is (by structural identity) an element of the store's
track list, so no `TrackMetadata` field has been mutated. -/
theorem generate_playlist_frame :
    ∀ (lib : TrackLibrary) (arc : JourneyArc) (sk pl : Bool)
      (choose : Nat → List TrackMetadata → TrackMetadata),
      (generate_playlist_st lib arc sk pl choose).1 = lib
      ∧ ((∀ n l, l ≠ [] → choose n l ∈ l) →
          ∀ p, (generate_playlist_st lib arc sk pl choose).2 = Except.ok p →
            ∀ t ∈ p.tracks, t ∈ lib.tracks) := by
  intro lib arc sk pl choose
  constructor
  · rw [generate_playlist_st_eq]
  · intro Hchoose p hp t ht
    rw [generate_playlist_st_eq] at hp
    revert hp
    show generate_playlist lib arc sk pl choose = Except.ok p → t ∈ lib.tracks
    unfold generate_playlist
    cases ho : select_opener lib arc sk pl choose with
    | none => intro hp; cases hp
    | some t0 =>
        intro hp
        injection hp with hp1
        have ht' : t ∈ (planLoop lib arc sk pl choose
            (List.range' 1 (arc.num_tracks - 1)) t0 [t0] []).1 := by
          rw [← hp1] at ht
          exact ht
        refine planLoop_mem lib arc sk pl choose Hchoose _ t0 [t0] [] ?_ t ht'
        intro u hu
        rw [List.mem_singleton.1 hu]
        exact select_opener_mem lib arc sk pl choose t0 Hchoose ho

/-- C9 witness: the frame property applied to the concrete two-track run. -/
theorem generate_playlist_frame_witness :
    (generate_playlist_st libW2 arcW false false chooseDefault).1 = libW2 ∧
      trW ∈ libW2.tracks := by
  refine ⟨(generate_playlist_frame libW2 arcW false false chooseDefault).1, ?_⟩
  refine (generate_playlist_frame libW2 arcW false false chooseDefault).2
    chooseDefault_mem playlistW2 ?_ trW ?_
  · rw [generate_playlist_st_eq]
    exact generate_playlist_libW2_eval
  · simp [playlistW2]

/-!  ## C10 — no track file repeats in a playlist -/

/-- C10: in every playlist `generate_playlist` returns, the selected
tracks' file paths are pairwise distinct, because every successor search
filters out all already-selected file paths. -/
theorem playlist_file_paths_nodup :
    ∀ (lib : TrackLibrary) (arc : JourneyArc) (sk pl : Bool)
      (choose : Nat → List TrackMetadata → TrackMetadata),
      (∀ n l, l ≠ [] → choose n l ∈ l) →
      ∀ p, generate_playlist lib arc sk pl choose = Except.ok p →
        (p.tracks.map (fun t : TrackMetadata => t.file_path)).Nodup := by
  intro lib arc sk pl choose Hchoose p hp
  revert hp
  unfold generate_playlist
  cases ho : select_opener lib arc sk pl choose with
  | none => intro hp; cases hp
  | some t0 =>
      intro hp
      injection hp with hp1
      rw [← hp1]
      exact planLoop_nodup lib arc sk pl choose Hchoose _ t0 [t0] [] (by simp)

/-- C10 witness: the distinctness property on the concrete two-track run. -/
theorem playlist_file_paths_nodup_witness :
    (playlistW2.tracks.map (fun t : TrackMetadata => t.file_path)).Nodup :=
  playlist_file_paths_nodup libW2 arcW false false chooseDefault
    chooseDefault_mem playlistW2 generate_playlist_libW2_eval

end TrackSelector
